import Mathlib

set_option maxRecDepth 100000

/-!
Shallow embedding of the PNGMe chunk codec (src/chunk_type.rs and
src/chunk.rs): the 4-byte chunk type tag with its bit-5 flags, the CRC-32
checksum, chunk serialization, and chunk parsing.  Bytes are modelled as
natural numbers below 256; u32 arithmetic carries explicit reductions
modulo 2^32 where the source casts.  Rust slice operations that can abort
the process (split_at with an out-of-range index) are modelled by a
distinguished panicked outcome of the parse function.
-/

namespace PNGMe

/-- One round of the reflected CRC-32 bit loop used by the crc32fast hash:
shift right one bit, folding in the reversed IEEE polynomial 0xEDB88320
when the low bit was set. -/
def crc32Step (c : Nat) : Nat :=
  if c % 2 = 1 then (c / 2) ^^^ 0xEDB88320 else c / 2

/-- CRC-32 state update for one input byte: xor the byte into the state,
then run eight bit rounds. -/
def crc32Byte (c b : Nat) : Nat :=
  crc32Step (crc32Step (crc32Step (crc32Step
    (crc32Step (crc32Step (crc32Step (crc32Step (c ^^^ b))))))))

/-- The CRC-32 (IEEE, reflected) of a byte sequence, as computed by
crc32fast::hash in Chunk::crc: initial state 0xFFFFFFFF, one update per
byte, final xor with 0xFFFFFFFF. -/
def crc32 (bytes : List Nat) : Nat :=
  (bytes.foldl crc32Byte 0xFFFFFFFF) ^^^ 0xFFFFFFFF

/-- Big-endian byte decomposition of a 32-bit value, as u32::to_be_bytes. -/
def u32ToBeBytes (n : Nat) : List Nat :=
  [n / 2 ^ 24 % 256, n / 2 ^ 16 % 256, n / 2 ^ 8 % 256, n % 256]

/-- Big-endian recomposition of four bytes, as u32::from_be_bytes. -/
def u32FromBeBytes (a b c d : Nat) : Nat :=
  a * 2 ^ 24 + b * 2 ^ 16 + c * 2 ^ 8 + d

/-- The ancillary flag enum of src/chunk_type.rs. -/
inductive Ancillary
  | Critical
  | Ancillary
deriving DecidableEq, Repr

/-- The private flag enum of src/chunk_type.rs. -/
inductive Private
  | Private
  | Public
deriving DecidableEq, Repr

/-- The reserved flag enum of src/chunk_type.rs. -/
inductive Reserved
  | Reserved
  | NotReserved
deriving DecidableEq, Repr

/-- The safe-to-copy flag enum of src/chunk_type.rs. -/
inductive SafeToCopy
  | SafeToCopy
  | UnsafeToCopy
deriving DecidableEq, Repr

/-- The ChunkType struct of src/chunk_type.rs: the four tag bytes, their
character reinterpretation, and the four decoded flag bits. -/
structure ChunkType where
  string_value : List Char
  numeric_value : List Nat
  ancillary_bit : Ancillary
  private_bit : Private
  reserved_bit : Reserved
  safe_to_copy_bit : SafeToCopy
deriving DecidableEq, Repr

/-- ChunkType::bytes. -/
def ChunkType.bytes (t : ChunkType) : List Nat :=
  t.numeric_value

/-- ChunkType::is_critical. -/
def ChunkType.is_critical (t : ChunkType) : Bool :=
  t.ancillary_bit = Ancillary.Critical

/-- ChunkType::is_public. -/
def ChunkType.is_public (t : ChunkType) : Bool :=
  t.private_bit = Private.Private

/-- ChunkType::is_reserved_bit_valid. -/
def ChunkType.is_reserved_bit_valid (t : ChunkType) : Bool :=
  t.reserved_bit = Reserved.Reserved

/-- ChunkType::is_safe_to_copy. -/
def ChunkType.is_safe_to_copy (t : ChunkType) : Bool :=
  t.safe_to_copy_bit = SafeToCopy.SafeToCopy

/-- ChunkType::is_valid. -/
def ChunkType.is_valid (t : ChunkType) : Bool :=
  t.is_reserved_bit_valid

/-- The byte test of the loop in ChunkType::try_from, line 119 of
src/chunk_type.rs: a byte is refused when it is below 65, in the 91..=96
gap, or above 122. -/
def invalidTagByte (i : Nat) : Bool :=
  i < 65 || (91 ≤ i && i ≤ 96) || 122 < i

/-- The error text returned by ChunkType::try_from for an out-of-range
byte. -/
def invalidByteMsg : String :=
  "\nError:\nNumber must be a valid utf8 alpha numeric character\nRemember A - Z = 65 - 90 and a - z = 97 - 122\nNumber outside of valid range, check PNG documentation to see valid range"

/-- ChunkType::try_from over the four bytes of a [u8; 4]: reject any byte
outside the two ASCII letter ranges, otherwise build the struct, decoding
each flag from bit 5 of its byte. -/
def ChunkType.try_from (v0 v1 v2 v3 : Nat) : Except String ChunkType :=
  if invalidTagByte v0 || invalidTagByte v1 || invalidTagByte v2 || invalidTagByte v3 then
    Except.error invalidByteMsg
  else
    Except.ok
      { string_value := [Char.ofNat v0, Char.ofNat v1, Char.ofNat v2, Char.ofNat v3]
        numeric_value := [v0, v1, v2, v3]
        ancillary_bit := if v0 &&& (1 <<< 5) = 0 then Ancillary.Critical else Ancillary.Ancillary
        private_bit := if v1 &&& (1 <<< 5) = 0 then Private.Private else Private.Public
        reserved_bit := if v2 &&& (1 <<< 5) = 0 then Reserved.Reserved else Reserved.NotReserved
        safe_to_copy_bit :=
          if v3 &&& (1 <<< 5) = 0 then SafeToCopy.UnsafeToCopy else SafeToCopy.SafeToCopy }

/-- UTF-8 encoding of one character, modelling how a Rust str stores its
text as bytes. -/
def charUtf8Bytes (c : Char) : List Nat :=
  let n := c.toNat
  if n < 0x80 then [n]
  else if n < 0x800 then
    [0xC0 ||| n >>> 6, 0x80 ||| (n &&& 0x3F)]
  else if n < 0x10000 then
    [0xE0 ||| n >>> 12, 0x80 ||| (n >>> 6 &&& 0x3F), 0x80 ||| (n &&& 0x3F)]
  else
    [0xF0 ||| n >>> 18, 0x80 ||| (n >>> 12 &&& 0x3F), 0x80 ||| (n >>> 6 &&& 0x3F),
      0x80 ||| (n &&& 0x3F)]

/-- UTF-8 encoding of a character sequence: the byte content of a Rust str,
whose len() counts these bytes. -/
def utf8Bytes : List Char → List Nat
  | [] => []
  | c :: cs => charUtf8Bytes c ++ utf8Bytes cs

/-- The error text returned by ChunkType::from_str when the input is not 4
bytes long. -/
def wrongLengthMsg : String :=
  "A chunk must have 4 chars"

/-- ChunkType::from_str: require the string to be exactly 4 bytes long
(Rust str::len counts UTF-8 bytes), then delegate its four bytes to
ChunkType::try_from. -/
def ChunkType.from_str (s : List Char) : Except String ChunkType :=
  if (utf8Bytes s).length ≠ 4 then Except.error wrongLengthMsg
  else
    match utf8Bytes s with
    | [a, b, c, d] => ChunkType.try_from a b c d
    | _ => Except.error wrongLengthMsg

/-- The Chunk struct of src/chunk.rs. -/
structure Chunk where
  chunk_type : ChunkType
  data : List Nat
deriving DecidableEq, Repr

/-- Chunk::new. -/
def Chunk.new (chunk_type : ChunkType) (data : List Nat) : Chunk :=
  { chunk_type := chunk_type, data := data }

/-- Chunk::length: the data length cast to u32, hence reduced modulo
2^32. -/
def Chunk.length (c : Chunk) : Nat :=
  c.data.length % 2 ^ 32

/-- Chunk::crc: the CRC-32 of the type bytes followed by the data
bytes. -/
def Chunk.crc (c : Chunk) : Nat :=
  crc32 (c.chunk_type.bytes ++ c.data)

/-- Chunk::as_bytes: big-endian length (the data length cast to u32), type
bytes, data, big-endian recomputed checksum. -/
def Chunk.as_bytes (c : Chunk) : List Nat :=
  u32ToBeBytes (c.data.length % 2 ^ 32) ++ c.chunk_type.bytes ++ c.data ++
    u32ToBeBytes c.crc

/-- The ChunkError enum of src/chunk.rs. -/
inductive ChunkError
  | DataSampleSmall (length : Nat)
  | ParsingDataLength
  | ParsingDataType
  | ParsingChunkType (msg : String)
  | ParsingCrc
  | CrcNotMatching (parsed calculated : Nat)
deriving DecidableEq, Repr

/-- Outcome of Chunk::try_from: an ordinary Ok or Err result, or a process
abort.  Rust slice::split_at(mid) panics when mid exceeds the slice
length; the panicked outcome records that the source aborts there instead
of returning. -/
inductive ParseOutcome
  | ok (c : Chunk)
  | err (e : ChunkError)
  | panicked
deriving DecidableEq, Repr

/-- The sizes META_DATA_BYTES, DATA_LENGTH_BYTES, DATA_TYPE_BYTES and
CRC_BYTES of src/chunk.rs are all spelled out as literals below: 12 for the
minimum frame and 4 for each field. -/
def META_DATA_BYTES : Nat := 12

/-- Chunk::try_from over a byte slice, step for step: minimum length
check, split off the 4-byte big-endian length, split off and construct the
4-byte type, split the data at the declared length (panicking as
slice::split_at does when it exceeds the remaining bytes), split off the
4-byte checksum (again panicking when fewer than 4 bytes remain), and
compare the parsed checksum with the recomputed one. -/
def Chunk.try_from (value : List Nat) : ParseOutcome :=
  if value.length < META_DATA_BYTES then
    ParseOutcome.err (ChunkError.DataSampleSmall value.length)
  else
    match value.take 4 with
    | [l0, l1, l2, l3] =>
      let data_length := u32FromBeBytes l0 l1 l2 l3
      let rest := value.drop 4
      match rest.take 4 with
      | [t0, t1, t2, t3] =>
        match ChunkType.try_from t0 t1 t2 t3 with
        | Except.error e => ParseOutcome.err (ChunkError.ParsingChunkType e)
        | Except.ok chunk_type =>
          let rest2 := rest.drop 4
          if rest2.length < data_length then ParseOutcome.panicked
          else
            let data := rest2.take data_length
            let rest3 := rest2.drop data_length
            if rest3.length < 4 then ParseOutcome.panicked
            else
              match rest3.take 4 with
              | [c0, c1, c2, c3] =>
                let crc := u32FromBeBytes c0 c1 c2 c3
                let chunk : Chunk := { chunk_type := chunk_type, data := data }
                if chunk.crc ≠ crc then
                  ParseOutcome.err (ChunkError.CrcNotMatching crc chunk.crc)
                else
                  ParseOutcome.ok chunk
              | _ => ParseOutcome.err ChunkError.ParsingCrc
      | _ => ParseOutcome.err ChunkError.ParsingDataType
    | _ => ParseOutcome.err ChunkError.ParsingDataLength

-- Equality of Except values is decidable componentwise; used to evaluate
-- ChunkType construction results on concrete inputs.
deriving instance DecidableEq for Except

/-- The tag built from the bytes of "RuSt": critical, not public, reserved
bit valid, safe to copy. -/
def ctRuSt : ChunkType :=
  { string_value := ['R', 'u', 'S', 't']
    numeric_value := [82, 117, 83, 116]
    ancillary_bit := Ancillary.Critical
    private_bit := Private.Public
    reserved_bit := Reserved.Reserved
    safe_to_copy_bit := SafeToCopy.SafeToCopy }

/-- The tag built from the bytes of "RUSt": bit 5 of byte 1 is clear, so
the source stores the Private variant and is_public answers true. -/
def ctRUSt : ChunkType :=
  { string_value := ['R', 'U', 'S', 't']
    numeric_value := [82, 85, 83, 116]
    ancillary_bit := Ancillary.Critical
    private_bit := Private.Private
    reserved_bit := Reserved.Reserved
    safe_to_copy_bit := SafeToCopy.SafeToCopy }

/-- The tag built from the bytes of "Rust": bit 5 of byte 2 is set, so the
reserved bit is in its invalid state and is_valid answers false. -/
def ctRust : ChunkType :=
  { string_value := ['R', 'u', 's', 't']
    numeric_value := [82, 117, 115, 116]
    ancillary_bit := Ancillary.Critical
    private_bit := Private.Public
    reserved_bit := Reserved.NotReserved
    safe_to_copy_bit := SafeToCopy.SafeToCopy }

/-- The 42 payload bytes of the test scenario of src/chunk.rs. -/
def secretMsg : List Nat :=
  "This is where your secret message will be!".toList.map Char.toNat

/-- The well-formed 54-byte frame of the test scenario: length 42, type
"RuSt", the payload, checksum 2882656334. -/
def goodFrame : List Nat :=
  u32ToBeBytes 42 ++ [82, 117, 83, 116] ++ secretMsg ++ u32ToBeBytes 2882656334

/-- The same frame with the checksum field lowered by one. -/
def badFrame : List Nat :=
  u32ToBeBytes 42 ++ [82, 117, 83, 116] ++ secretMsg ++ u32ToBeBytes 2882656333

lemma take4_cons (e0 e1 e2 e3 : Nat) (l : List Nat) :
    (e0 :: e1 :: e2 :: e3 :: l).take 4 = [e0, e1, e2, e3] := rfl

lemma drop4_cons (e0 e1 e2 e3 : Nat) (l : List Nat) :
    (e0 :: e1 :: e2 :: e3 :: l).drop 4 = l := rfl

lemma u32_roundtrip {n : Nat} (h : n < 2 ^ 32) :
    u32FromBeBytes (n / 2 ^ 24 % 256) (n / 2 ^ 16 % 256) (n / 2 ^ 8 % 256) (n % 256) = n := by
  simp only [u32FromBeBytes]
  omega

lemma crc32Step_lt {c : Nat} (h : c < 2 ^ 32) : crc32Step c < 2 ^ 32 := by
  unfold crc32Step
  split
  · exact Nat.xor_lt_two_pow (by omega) (by norm_num)
  · omega

lemma crc32Byte_lt {c b : Nat} (hc : c < 2 ^ 32) (hb : b < 256) : crc32Byte c b < 2 ^ 32 := by
  unfold crc32Byte
  have h0 : c ^^^ b < 2 ^ 32 := Nat.xor_lt_two_pow hc (by omega)
  exact crc32Step_lt (crc32Step_lt (crc32Step_lt (crc32Step_lt
    (crc32Step_lt (crc32Step_lt (crc32Step_lt (crc32Step_lt h0)))))))

lemma foldl_crc32Byte_lt : ∀ (l : List Nat) (a : Nat), (∀ x ∈ l, x < 256) → a < 2 ^ 32 →
    l.foldl crc32Byte a < 2 ^ 32
  | [], a, _, ha => by simpa using ha
  | x :: xs, a, h, ha => by
    simp only [List.foldl_cons]
    exact foldl_crc32Byte_lt xs _ (fun y hy => h y (List.mem_cons_of_mem _ hy))
      (crc32Byte_lt ha (h x (List.mem_cons_self x xs)))

lemma crc32_lt {l : List Nat} (h : ∀ x ∈ l, x < 256) : crc32 l < 2 ^ 32 := by
  unfold crc32
  exact Nat.xor_lt_two_pow (foldl_crc32Byte_lt l 0xFFFFFFFF h (by norm_num)) (by norm_num)

lemma try_from_ok_inv {a b c d : Nat} {t : ChunkType}
    (h : ChunkType.try_from a b c d = Except.ok t) :
    t.numeric_value = [a, b, c, d] ∧
    invalidTagByte a = false ∧ invalidTagByte b = false ∧
    invalidTagByte c = false ∧ invalidTagByte d = false := by
  unfold ChunkType.try_from at h
  split at h
  · cases h
  · next hcond =>
    cases h
    simp only [Bool.or_eq_true, not_or, Bool.not_eq_true] at hcond
    exact ⟨rfl, hcond.1.1.1, hcond.1.1.2, hcond.1.2, hcond.2⟩

lemma invalidTagByte_false_lt {x : Nat} (h : invalidTagByte x = false) : x < 256 := by
  simp only [invalidTagByte, Bool.or_eq_false_iff, decide_eq_false_iff_not,
    Bool.and_eq_false_iff] at h
  omega

lemma invalidTagByte_false_iff (x : Nat) :
    invalidTagByte x = false ↔ (65 ≤ x ∧ x ≤ 90) ∨ (97 ≤ x ∧ x ≤ 122) := by
  simp only [invalidTagByte, Bool.or_eq_false_iff, decide_eq_false_iff_not,
    Bool.and_eq_false_iff]
  omega

lemma Chunk.new_chunk_type (t : ChunkType) (d : List Nat) : (Chunk.new t d).chunk_type = t := rfl

lemma Chunk.new_data (t : ChunkType) (d : List Nat) : (Chunk.new t d).data = d := rfl

lemma try_from_as_bytes {a b c d : Nat} (t : ChunkType) (dat : List Nat)
    (hw : ChunkType.try_from a b c d = Except.ok t)
    (hbytes : ∀ x ∈ dat, x < 256) (hlen : dat.length < 2 ^ 32) :
    Chunk.try_from (Chunk.as_bytes (Chunk.new t dat)) = ParseOutcome.ok (Chunk.new t dat) := by
  obtain ⟨tb, ha, hb, hc, hd⟩ := try_from_ok_inv hw
  have hKbytes : ∀ x ∈ t.bytes ++ dat, x < 256 := by
    rw [ChunkType.bytes, tb]
    intro x hx
    simp only [List.cons_append, List.nil_append, List.mem_cons] at hx
    rcases hx with rfl | rfl | rfl | rfl | hx
    · exact invalidTagByte_false_lt ha
    · exact invalidTagByte_false_lt hb
    · exact invalidTagByte_false_lt hc
    · exact invalidTagByte_false_lt hd
    · exact hbytes x hx
  obtain ⟨K, hKdef⟩ : ∃ K, (Chunk.new t dat).crc = K := ⟨_, rfl⟩
  have hKlt : K < 2 ^ 32 := by
    rw [← hKdef, Chunk.crc, Chunk.new_chunk_type, Chunk.new_data]
    exact crc32_lt hKbytes
  have hab : (Chunk.new t dat).as_bytes =
      (dat.length / 2 ^ 24 % 256) :: (dat.length / 2 ^ 16 % 256) ::
      (dat.length / 2 ^ 8 % 256) :: (dat.length % 256) ::
      (a :: b :: c :: d :: (dat ++ u32ToBeBytes K)) := by
    rw [Chunk.as_bytes, Chunk.new_chunk_type, Chunk.new_data, ChunkType.bytes, tb, hKdef,
      Nat.mod_eq_of_lt hlen]
    simp only [u32ToBeBytes, List.append_assoc, List.cons_append, List.nil_append]
  have hlength : ((dat.length / 2 ^ 24 % 256) :: (dat.length / 2 ^ 16 % 256) ::
      (dat.length / 2 ^ 8 % 256) :: (dat.length % 256) ::
      (a :: b :: c :: d :: (dat ++ u32ToBeBytes K))).length = dat.length + 12 := by
    simp only [List.length_cons, List.length_append, u32ToBeBytes, List.length_nil]
  rw [hab, Chunk.try_from, hlength]
  rw [if_neg (by simp only [META_DATA_BYTES]; omega)]
  dsimp only [take4_cons, drop4_cons]
  rw [hw, u32_roundtrip hlen]
  dsimp only []
  have h2 : ¬ ((dat ++ u32ToBeBytes K).length < dat.length) := by
    simp only [List.length_append, u32ToBeBytes, List.length_cons, List.length_nil]
    omega
  rw [if_neg h2, List.take_left, List.drop_left]
  have h3 : ¬ ((u32ToBeBytes K).length < 4) := by
    simp only [u32ToBeBytes, List.length_cons, List.length_nil]
    omega
  rw [if_neg h3]
  dsimp only [u32ToBeBytes, take4_cons]
  rw [u32_roundtrip hKlt]
  have hKdef2 : ({ chunk_type := t, data := dat } : Chunk).crc = K := hKdef
  rw [hKdef2]
  rw [if_neg (by simp)]
  rfl

lemma try_from_flag_spec {a b c d : Nat} {t : ChunkType}
    (h : ChunkType.try_from a b c d = Except.ok t) :
    (t.is_critical = true ↔ a &&& 32 = 0) ∧
    (t.is_public = true ↔ b &&& 32 = 0) ∧
    (t.is_reserved_bit_valid = true ↔ c &&& 32 = 0) ∧
    (t.is_safe_to_copy = true ↔ d &&& 32 ≠ 0) := by
  unfold ChunkType.try_from at h
  split at h
  · cases h
  · cases h
    refine ⟨?_, ?_, ?_, ?_⟩
    · simp only [ChunkType.is_critical, decide_eq_true_eq]
      split
      · next h0 => simpa using h0
      · next h0 => simpa using h0
    · simp only [ChunkType.is_public, decide_eq_true_eq]
      split
      · next h0 => simpa using h0
      · next h0 => simpa using h0
    · simp only [ChunkType.is_reserved_bit_valid, decide_eq_true_eq]
      split
      · next h0 => simpa using h0
      · next h0 => simpa using h0
    · simp only [ChunkType.is_safe_to_copy, decide_eq_true_eq]
      split
      · next h0 => simpa using h0
      · next h0 => simpa using h0

lemma list_len4 {α : Type} (l : List α) (h : l.length = 4) :
    ∃ a b c d, l = [a, b, c, d] := by
  cases l with
  | nil => simp at h
  | cons a l1 =>
    cases l1 with
    | nil => simp at h
    | cons b l2 =>
      cases l2 with
      | nil => simp at h
      | cons c l3 =>
        cases l3 with
        | nil => simp at h
        | cons d l4 =>
          cases l4 with
          | nil => exact ⟨a, b, c, d, rfl⟩
          | cons e l5 => simp [List.length_cons] at h

/-- C1: for every successfully constructed ChunkType t and every data
buffer of fewer than 2^32 bytes, parsing the serialization of the chunk
built from them succeeds, and the parsed chunk has the same type bytes,
the same data and the same computed checksum as the original. -/
theorem C1_serialize_parse_roundtrip (a b c d : Nat) (t : ChunkType) (dat : List Nat)
    (hw : ChunkType.try_from a b c d = Except.ok t)
    (hbytes : ∀ x ∈ dat, x < 256) (hlen : dat.length < 2 ^ 32) :
    ∃ c2, Chunk.try_from (Chunk.as_bytes (Chunk.new t dat)) = ParseOutcome.ok c2 ∧
      c2.chunk_type.bytes = t.bytes ∧ c2.data = dat ∧
      Chunk.crc c2 = Chunk.crc (Chunk.new t dat) :=
  ⟨Chunk.new t dat, try_from_as_bytes t dat hw hbytes hlen, rfl, rfl, rfl⟩

/-- Witness for C1 at the RuSt tag with a three-byte payload. -/
theorem C1_serialize_parse_roundtrip_witness :
    ChunkType.try_from 82 117 83 116 = Except.ok ctRuSt ∧
    (∀ x ∈ ([1, 2, 3] : List Nat), x < 256) ∧ ([1, 2, 3] : List Nat).length < 2 ^ 32 ∧
    (∃ c2, Chunk.try_from (Chunk.as_bytes (Chunk.new ctRuSt [1, 2, 3])) = ParseOutcome.ok c2 ∧
      c2.chunk_type.bytes = ctRuSt.bytes ∧ c2.data = [1, 2, 3] ∧
      Chunk.crc c2 = Chunk.crc (Chunk.new ctRuSt [1, 2, 3])) :=
  ⟨by decide, by decide, by decide,
    C1_serialize_parse_roundtrip 82 117 83 116 ctRuSt [1, 2, 3] (by decide) (by decide)
      (by decide)⟩

/-- C2: the claim says a declared data length exceeding the remaining
bytes is reported as an ordinary error; the code instead reaches
slice::split_at with an out-of-range index and aborts.  This theorem
evaluates the parse on a 12-byte frame declaring length 5 with only 4
bytes left after the type field: the outcome is the panic, not an err. -/
theorem C2_truncated_data_aborts :
    Chunk.try_from [0, 0, 0, 5, 82, 117, 83, 116, 0, 0, 0, 0] = ParseOutcome.panicked ∧
    ∀ e, Chunk.try_from [0, 0, 0, 5, 82, 117, 83, 116, 0, 0, 0, 0] ≠ ParseOutcome.err e := by
  refine ⟨by decide, ?_⟩
  intro e h
  rw [show Chunk.try_from [0, 0, 0, 5, 82, 117, 83, 116, 0, 0, 0, 0] = ParseOutcome.panicked
    from by decide] at h
  cases h

/-- C3: the claim says fewer than 4 bytes left for the checksum field is
reported as an ordinary error; the code instead reaches slice::split_at
with an out-of-range index and aborts.  This theorem evaluates the parse
on a 12-byte frame declaring length 2, which leaves only 2 bytes for the
checksum: the outcome is the panic, not an err. -/
theorem C3_checksum_field_aborts :
    Chunk.try_from [0, 0, 0, 2, 82, 117, 83, 116, 0, 0, 0, 0] = ParseOutcome.panicked ∧
    ∀ e, Chunk.try_from [0, 0, 0, 2, 82, 117, 83, 116, 0, 0, 0, 0] ≠ ParseOutcome.err e := by
  refine ⟨by decide, ?_⟩
  intro e h
  rw [show Chunk.try_from [0, 0, 0, 2, 82, 117, 83, 116, 0, 0, 0, 0] = ParseOutcome.panicked
    from by decide] at h
  cases h

/-- C4: ChunkType construction from 4 raw bytes succeeds exactly when
every byte lies in 65..90 or 97..122; on success bytes() returns the
input, and otherwise construction fails with the invalid-byte error. -/
theorem C4_tag_byte_validation (a b c d : Nat)
    (ha : a < 256) (hb : b < 256) (hc : c < 256) (hd : d < 256) :
    ((((65 ≤ a ∧ a ≤ 90) ∨ (97 ≤ a ∧ a ≤ 122)) ∧ ((65 ≤ b ∧ b ≤ 90) ∨ (97 ≤ b ∧ b ≤ 122)) ∧
      ((65 ≤ c ∧ c ≤ 90) ∨ (97 ≤ c ∧ c ≤ 122)) ∧ ((65 ≤ d ∧ d ≤ 90) ∨ (97 ≤ d ∧ d ≤ 122))) →
      ∃ t, ChunkType.try_from a b c d = Except.ok t ∧ t.bytes = [a, b, c, d]) ∧
    (¬(((65 ≤ a ∧ a ≤ 90) ∨ (97 ≤ a ∧ a ≤ 122)) ∧ ((65 ≤ b ∧ b ≤ 90) ∨ (97 ≤ b ∧ b ≤ 122)) ∧
      ((65 ≤ c ∧ c ≤ 90) ∨ (97 ≤ c ∧ c ≤ 122)) ∧ ((65 ≤ d ∧ d ≤ 90) ∨ (97 ≤ d ∧ d ≤ 122))) →
      ChunkType.try_from a b c d = Except.error invalidByteMsg) := by
  constructor
  · intro hv
    have ha2 : invalidTagByte a = false := (invalidTagByte_false_iff a).mpr hv.1
    have hb2 : invalidTagByte b = false := (invalidTagByte_false_iff b).mpr hv.2.1
    have hc2 : invalidTagByte c = false := (invalidTagByte_false_iff c).mpr hv.2.2.1
    have hd2 : invalidTagByte d = false := (invalidTagByte_false_iff d).mpr hv.2.2.2
    unfold ChunkType.try_from
    rw [if_neg (by rw [ha2, hb2, hc2, hd2]; simp)]
    exact ⟨_, rfl, rfl⟩
  · intro hv
    unfold ChunkType.try_from
    have hcond : (invalidTagByte a || invalidTagByte b || invalidTagByte c ||
        invalidTagByte d) = true := by
      by_contra hfalse
      simp only [Bool.or_eq_true, not_or, Bool.not_eq_true] at hfalse
      exact hv ⟨(invalidTagByte_false_iff a).mp hfalse.1.1.1,
        (invalidTagByte_false_iff b).mp hfalse.1.1.2,
        (invalidTagByte_false_iff c).mp hfalse.1.2,
        (invalidTagByte_false_iff d).mp hfalse.2⟩
    rw [if_pos hcond]

/-- Witness for C4 at the bytes of "RuSt". -/
theorem C4_tag_byte_validation_witness :
    (82 : Nat) < 256 ∧ (117 : Nat) < 256 ∧ (83 : Nat) < 256 ∧ (116 : Nat) < 256 ∧
    ((((65 ≤ 82 ∧ 82 ≤ 90) ∨ (97 ≤ 82 ∧ 82 ≤ 122)) ∧
        ((65 ≤ 117 ∧ 117 ≤ 90) ∨ (97 ≤ 117 ∧ 117 ≤ 122)) ∧
        ((65 ≤ 83 ∧ 83 ≤ 90) ∨ (97 ≤ 83 ∧ 83 ≤ 122)) ∧
        ((65 ≤ 116 ∧ 116 ≤ 90) ∨ (97 ≤ 116 ∧ 116 ≤ 122)) →
        ∃ t, ChunkType.try_from 82 117 83 116 = Except.ok t ∧ t.bytes = [82, 117, 83, 116]) ∧
      (¬(((65 ≤ 82 ∧ 82 ≤ 90) ∨ (97 ≤ 82 ∧ 82 ≤ 122)) ∧
        ((65 ≤ 117 ∧ 117 ≤ 90) ∨ (97 ≤ 117 ∧ 117 ≤ 122)) ∧
        ((65 ≤ 83 ∧ 83 ≤ 90) ∨ (97 ≤ 83 ∧ 83 ≤ 122)) ∧
        ((65 ≤ 116 ∧ 116 ≤ 90) ∨ (97 ≤ 116 ∧ 116 ≤ 122))) →
        ChunkType.try_from 82 117 83 116 = Except.error invalidByteMsg)) :=
  ⟨by decide, by decide, by decide, by decide,
    C4_tag_byte_validation 82 117 83 116 (by decide) (by decide) (by decide) (by decide)⟩

/-- C5: the exact 54-byte frame with length 42, type "RuSt", the secret
payload and checksum 2882656334 parses successfully with length 42 and
computed checksum 2882656334; the same frame with checksum 2882656333
fails with the checksum-mismatch error carrying the parsed and the
computed value. -/
theorem C5_concrete_frame :
    Chunk.try_from goodFrame = ParseOutcome.ok (Chunk.new ctRuSt secretMsg) ∧
    Chunk.length (Chunk.new ctRuSt secretMsg) = 42 ∧
    Chunk.crc (Chunk.new ctRuSt secretMsg) = 2882656334 ∧
    Chunk.try_from badFrame = ParseOutcome.err
      (ChunkError.CrcNotMatching 2882656333 2882656334) :=
  ⟨by decide, by decide, by decide, by decide⟩

/-- C6: for every successfully constructed ChunkType the four flag
accessors are decided by bit 5 of the corresponding byte (is_critical,
is_public and is_reserved_bit_valid when it is clear, is_safe_to_copy
when it is set), is_valid equals is_reserved_bit_valid, and the five
fixed examples RuSt, ruSt, RUSt, Rust and RuST behave as pinned. -/
theorem C6_flag_bits (a b c d : Nat) (t : ChunkType)
    (h : ChunkType.try_from a b c d = Except.ok t) :
    (t.is_critical = true ↔ a &&& 32 = 0) ∧
    (t.is_public = true ↔ b &&& 32 = 0) ∧
    (t.is_reserved_bit_valid = true ↔ c &&& 32 = 0) ∧
    (t.is_safe_to_copy = true ↔ d &&& 32 ≠ 0) ∧
    t.is_valid = t.is_reserved_bit_valid ∧
    (ChunkType.try_from 82 117 83 116).map ChunkType.is_critical = Except.ok true ∧
    (ChunkType.try_from 82 117 83 116).map ChunkType.is_public = Except.ok false ∧
    (ChunkType.try_from 82 117 83 116).map ChunkType.is_reserved_bit_valid = Except.ok true ∧
    (ChunkType.try_from 82 117 83 116).map ChunkType.is_safe_to_copy = Except.ok true ∧
    (ChunkType.try_from 82 117 83 116).map ChunkType.is_valid = Except.ok true ∧
    (ChunkType.try_from 114 117 83 116).map ChunkType.is_critical = Except.ok false ∧
    (ChunkType.try_from 82 85 83 116).map ChunkType.is_public = Except.ok true ∧
    (ChunkType.try_from 82 117 115 116).map ChunkType.is_valid = Except.ok false ∧
    (ChunkType.try_from 82 117 83 84).map ChunkType.is_safe_to_copy = Except.ok false := by
  obtain ⟨h1, h2, h3, h4⟩ := try_from_flag_spec h
  exact ⟨h1, h2, h3, h4, rfl, by decide, by decide, by decide, by decide, by decide,
    by decide, by decide, by decide, by decide⟩

/-- Witness for C6 at the RuSt tag. -/
theorem C6_flag_bits_witness :
    ChunkType.try_from 82 117 83 116 = Except.ok ctRuSt ∧
    ((ctRuSt.is_critical = true ↔ 82 &&& 32 = 0) ∧
      (ctRuSt.is_public = true ↔ 117 &&& 32 = 0) ∧
      (ctRuSt.is_reserved_bit_valid = true ↔ 83 &&& 32 = 0) ∧
      (ctRuSt.is_safe_to_copy = true ↔ 116 &&& 32 ≠ 0) ∧
      ctRuSt.is_valid = ctRuSt.is_reserved_bit_valid ∧
      (ChunkType.try_from 82 117 83 116).map ChunkType.is_critical = Except.ok true ∧
      (ChunkType.try_from 82 117 83 116).map ChunkType.is_public = Except.ok false ∧
      (ChunkType.try_from 82 117 83 116).map ChunkType.is_reserved_bit_valid = Except.ok true ∧
      (ChunkType.try_from 82 117 83 116).map ChunkType.is_safe_to_copy = Except.ok true ∧
      (ChunkType.try_from 82 117 83 116).map ChunkType.is_valid = Except.ok true ∧
      (ChunkType.try_from 114 117 83 116).map ChunkType.is_critical = Except.ok false ∧
      (ChunkType.try_from 82 85 83 116).map ChunkType.is_public = Except.ok true ∧
      (ChunkType.try_from 82 117 115 116).map ChunkType.is_valid = Except.ok false ∧
      (ChunkType.try_from 82 117 83 84).map ChunkType.is_safe_to_copy = Except.ok false) :=
  ⟨by decide, C6_flag_bits 82 117 83 116 ctRuSt (by decide)⟩

/-- C7: a structurally well-formed frame whose tag fails the reserved-bit
rule still parses successfully; is_valid remains a separate post-parse
query answering false on the parsed chunk's tag. -/
theorem C7_reserved_bit_not_enforced (a b c d : Nat) (t : ChunkType) (dat : List Nat)
    (hw : ChunkType.try_from a b c d = Except.ok t)
    (hbytes : ∀ x ∈ dat, x < 256) (hlen : dat.length < 2 ^ 32)
    (hval : t.is_valid = false) :
    ∃ c2, Chunk.try_from (Chunk.as_bytes (Chunk.new t dat)) = ParseOutcome.ok c2 ∧
      c2.chunk_type.is_valid = false :=
  ⟨Chunk.new t dat, try_from_as_bytes t dat hw hbytes hlen, hval⟩

/-- Witness for C7 at the reserved-bit-invalid tag "Rust" with empty
data. -/
theorem C7_reserved_bit_not_enforced_witness :
    ChunkType.try_from 82 117 115 116 = Except.ok ctRust ∧
    ctRust.is_valid = false ∧
    (∃ c2, Chunk.try_from (Chunk.as_bytes (Chunk.new ctRust [])) = ParseOutcome.ok c2 ∧
      c2.chunk_type.is_valid = false) :=
  ⟨by decide, by decide,
    C7_reserved_bit_not_enforced 82 117 115 116 ctRust [] (by decide) (by decide) (by decide)
      (by decide)⟩

/-- C8 counterexample: the string "abcé" has exactly 4 characters, yet
construction from text fails with the wrong-length error, because the
source measures UTF-8 bytes (5 here), not characters. -/
theorem C8_four_chars_wrong_length :
    (['a', 'b', 'c', 'é'] : List Char).length = 4 ∧
    ChunkType.from_str ['a', 'b', 'c', 'é'] = Except.error wrongLengthMsg :=
  ⟨by decide, by decide⟩

/-- C8 amended: construction from text fails with the wrong-length error
exactly when the string's UTF-8 byte count is not 4, and every 4-byte
string is delegated to byte construction. -/
theorem C8_wrong_length_iff_four_bytes (s : List Char) :
    (ChunkType.from_str s = Except.error wrongLengthMsg ↔ (utf8Bytes s).length ≠ 4) ∧
    (∀ a b c d, utf8Bytes s = [a, b, c, d] →
      ChunkType.from_str s = ChunkType.try_from a b c d) := by
  constructor
  · by_cases h4 : (utf8Bytes s).length = 4
    · obtain ⟨a, b, c, d, heq⟩ := list_len4 _ h4
      have hdel : ChunkType.from_str s = ChunkType.try_from a b c d := by
        unfold ChunkType.from_str
        rw [if_neg (by simp [h4]), heq]
      rw [hdel]
      simp only [h4, ne_eq, not_true_eq_false, iff_false]
      intro hbad
      unfold ChunkType.try_from at hbad
      split at hbad
      · simp only [Except.error.injEq] at hbad
        exact absurd hbad (by decide)
      · cases hbad
    · unfold ChunkType.from_str
      rw [if_pos h4]
      simp [h4]
  · intro a b c d heq
    unfold ChunkType.from_str
    rw [heq]
    rw [if_neg (by simp)]

/-- C9 counterexample: for the tag "RUSt", bit 5 of byte 1 (value 85) is
clear, yet is_public answers true — refuting the claim that is_public is
true exactly when that bit is set. -/
theorem C9_public_bit_counterexample :
    ChunkType.try_from 82 85 83 116 = Except.ok ctRUSt ∧
    ctRUSt.is_public = true ∧ 85 &&& 32 = 0 :=
  ⟨by decide, by decide, by decide⟩

/-- C9 amended: for every successfully constructed ChunkType, is_public
answers true exactly when bit 5 of byte 1 is clear: the accessor's
polarity is inverted with respect to the stored bit. -/
theorem C9_is_public_iff_bit_clear (a b c d : Nat) (t : ChunkType)
    (h : ChunkType.try_from a b c d = Except.ok t) :
    t.is_public = true ↔ b &&& 32 = 0 :=
  (try_from_flag_spec h).2.1

/-- Witness for C9 at the RuSt tag, whose byte 1 has bit 5 set. -/
theorem C9_is_public_iff_bit_clear_witness :
    ChunkType.try_from 82 117 83 116 = Except.ok ctRuSt ∧
    (ctRuSt.is_public = true ↔ 117 &&& 32 = 0) :=
  ⟨by decide, C9_is_public_iff_bit_clear 82 117 83 116 ctRuSt (by decide)⟩

/-- C10: length() is the data byte count reduced modulo 2^32, the
serialized length field stores exactly that reduced value in big-endian,
and for a data buffer of 2^32 bytes the stored length becomes 0 and no
longer equals the actual byte count. -/
theorem C10_length_truncates (ch : Chunk) :
    Chunk.length ch = ch.data.length % 2 ^ 32 ∧
    (Chunk.as_bytes ch).take 4 = u32ToBeBytes (Chunk.length ch) ∧
    (Chunk.new ctRuSt (List.replicate (2 ^ 32) 0)).data.length = 2 ^ 32 ∧
    Chunk.length (Chunk.new ctRuSt (List.replicate (2 ^ 32) 0)) = 0 := by
  refine ⟨rfl, ?_, ?_, ?_⟩
  · rw [Chunk.as_bytes, Chunk.length]
    simp only [u32ToBeBytes, List.append_assoc, List.cons_append, List.nil_append, take4_cons]
  · rw [Chunk.new_data, List.length_replicate]
  · rw [Chunk.length, Chunk.new_data, List.length_replicate, Nat.mod_self]

end PNGMe
